import Mathlib

/-!
# Verification of the X-agent posting pipeline

Shallow embedding of the `x_bot_agent` repository (files `config.py`,
`database.py`, `post_tweet.py`, `main.py`) and proofs about its
rate-limiting, deduplication and approval-gated posting logic.

Modelling conventions:
* SQLite tables become Lean lists of rows; the `UNIQUE` columns of
  `post_counts.month` and `posted_tweets.content_hash` are reflected by the
  upsert / insert-or-ignore semantics of the statements that write them.
* `sqlite3.Error` raised by a write statement is modelled by a Boolean
  input to the corresponding operation (`True` = the statement raises);
  the connection context manager rolls back, so the table is unchanged.
* Machine integers are `Nat` / `Int`; the MD5 word arithmetic is `Nat`
  reduced `% 2 ^ 32` wherever the 32-bit words can overflow.
* External effects of `post_tweet` (the clock, `input()`, the X API call,
  read/write failures) are inputs collected in `PostEnv`; whether
  `client.create_tweet` was invoked is recorded in the `transmitted` field
  of the outcome.
-/

/-! ## MD5 (`hashlib.md5(content.encode()).hexdigest()`)

`database.get_content_hash` hashes the UTF-8 encoding of the content with
MD5 and renders the digest as 32 lowercase hex characters.  The MD5
compression function below is the RFC 1321 algorithm over `Nat` words
taken modulo `2 ^ 32`. -/

namespace MD5

/-- Per-round left-rotation amounts of MD5 (RFC 1321). -/
def shiftTable : List Nat :=
  [7, 12, 17, 22, 7, 12, 17, 22, 7, 12, 17, 22, 7, 12, 17, 22,
   5, 9, 14, 20, 5, 9, 14, 20, 5, 9, 14, 20, 5, 9, 14, 20,
   4, 11, 16, 23, 4, 11, 16, 23, 4, 11, 16, 23, 4, 11, 16, 23,
   6, 10, 15, 21, 6, 10, 15, 21, 6, 10, 15, 21, 6, 10, 15, 21]

/-- The 64 sine-derived additive constants of MD5 (RFC 1321). -/
def sineTable : List Nat :=
  [0xd76aa478, 0xe8c7b756, 0x242070db, 0xc1bdceee,
   0xf57c0faf, 0x4787c62a, 0xa8304613, 0xfd469501,
   0x698098d8, 0x8b44f7af, 0xffff5bb1, 0x895cd7be,
   0x6b901122, 0xfd987193, 0xa679438e, 0x49b40821,
   0xf61e2562, 0xc040b340, 0x265e5a51, 0xe9b6c7aa,
   0xd62f105d, 0x02441453, 0xd8a1e681, 0xe7d3fbc8,
   0x21e1cde6, 0xc33707d6, 0xf4d50d87, 0x455a14ed,
   0xa9e3e905, 0xfcefa3f8, 0x676f02d9, 0x8d2a4c8a,
   0xfffa3942, 0x8771f681, 0x6d9d6122, 0xfde5380c,
   0xa4beea44, 0x4bdecfa9, 0xf6bb4b60, 0xbebfbc70,
   0x289b7ec6, 0xeaa127fa, 0xd4ef3085, 0x04881d05,
   0xd9d4d039, 0xe6db99e5, 0x1fa27cf8, 0xc4ac5665,
   0xf4292244, 0x432aff97, 0xab9423a7, 0xfc93a039,
   0x655b59c3, 0x8f0ccc92, 0xffeff47d, 0x85845dd1,
   0x6fa87e4f, 0xfe2ce6e0, 0xa3014314, 0x4e0811a1,
   0xf7537e82, 0xbd3af235, 0x2ad7d2bb, 0xeb86d391]

/-- Left rotation of a 32-bit word. -/
def leftrotate (x n : Nat) : Nat :=
  ((x <<< n) ||| (x >>> (32 - n))) % 2 ^ 32

/-- Little-endian bytes: the low `k` bytes of `n`. -/
def toLEBytes (n k : Nat) : List Nat :=
  (List.range k).map fun i => (n >>> (8 * i)) % 256

/-- MD5 padding: a `0x80` byte, zeros up to 56 mod 64, then the bit length
as 8 little-endian bytes. -/
def pad (msg : List Nat) : List Nat :=
  msg ++ [0x80] ++ List.replicate ((56 + 64 - (msg.length + 1) % 64) % 64) 0
      ++ toLEBytes (msg.length * 8 % 2 ^ 64) 8

/-- Group bytes into little-endian 32-bit words. -/
def bytesToWords : List Nat → List Nat
  | b0 :: b1 :: b2 :: b3 :: rest =>
      (b0 + b1 * 256 + b2 * 65536 + b3 * 16777216) :: bytesToWords rest
  | _ => []

/-- Split a byte list into 64-byte chunks. -/
def chunks64 (l : List Nat) : List (List Nat) :=
  if h : l = [] then [] else
    l.take 64 :: chunks64 (l.drop 64)
termination_by l.length
decreasing_by
  simp only [List.length_drop]
  exact Nat.sub_lt (List.length_pos.mpr h) (by omega)

/-- One of the 64 MD5 operations on the state `(A, B, C, D)`. -/
def md5Round (M : List Nat) (st : Nat × Nat × Nat × Nat) (i : Nat) :
    Nat × Nat × Nat × Nat :=
  let (A, B, C, D) := st
  let Fg : Nat × Nat :=
    if i < 16 then ((B &&& C) ||| ((B ^^^ 0xffffffff) &&& D), i)
    else if i < 32 then ((D &&& B) ||| ((D ^^^ 0xffffffff) &&& C), (5 * i + 1) % 16)
    else if i < 48 then (B ^^^ C ^^^ D, (3 * i + 5) % 16)
    else (C ^^^ (B ||| (D ^^^ 0xffffffff)), (7 * i) % 16)
  let Fv := (Fg.1 + A + sineTable.getD i 0 + M.getD Fg.2 0) % 2 ^ 32
  (D, (B + leftrotate Fv (shiftTable.getD i 0)) % 2 ^ 32, B, C)

/-- Process one 64-byte block, updating the running digest state. -/
def md5Block (st : Nat × Nat × Nat × Nat) (block : List Nat) :
    Nat × Nat × Nat × Nat :=
  let M := bytesToWords block
  let r := (List.range 64).foldl (md5Round M) st
  ((st.1 + r.1) % 2 ^ 32, (st.2.1 + r.2.1) % 2 ^ 32,
   (st.2.2.1 + r.2.2.1) % 2 ^ 32, (st.2.2.2 + r.2.2.2) % 2 ^ 32)

/-- One lowercase hexadecimal digit. -/
def hexDigit (n : Nat) : Char :=
  if n < 10 then Char.ofNat (48 + n) else Char.ofNat (87 + n)

/-- Two lowercase hex characters for one byte. -/
def byteToHex (b : Nat) : List Char :=
  [hexDigit (b / 16), hexDigit (b % 16)]

/-- Render a 32-bit word as 8 hex characters, little-endian byte order. -/
def wordToHexLE (w : Nat) : List Char :=
  ((toLEBytes w 4).map byteToHex).flatten

/-- MD5 digest of a byte list as a 32-character lowercase hex string. -/
def md5Hex (msg : List Nat) : String :=
  let st := (chunks64 (pad msg)).foldl md5Block
    (0x67452301, 0xefcdab89, 0x98badcfe, 0x10325476)
  String.mk (([st.1, st.2.1, st.2.2.1, st.2.2.2].map wordToHexLE).flatten)

end MD5

/-! ## Python string primitives used by the code

`String` in Lean stores the list of Unicode code points, matching Python's
view of `str`, so `len`, slicing and per-character maps are list
operations on `String.data`. -/

/-- The characters Python's `str.strip()` removes: exactly those `c` with
`c.isspace()` (Unicode whitespace: 09–0D, 1C–1F, space, NEL, NBSP, Ogham
space, the U+2000 range, line/paragraph separators, NNBSP, MMSP,
ideographic space). -/
def isPyWhitespace (c : Char) : Bool :=
  (0x09 ≤ c.toNat && c.toNat ≤ 0x0d) || c.toNat == 0x20 ||
  (0x1c ≤ c.toNat && c.toNat ≤ 0x1f) || c.toNat == 0x85 || c.toNat == 0xa0 ||
  c.toNat == 0x1680 || (0x2000 ≤ c.toNat && c.toNat ≤ 0x200a) ||
  c.toNat == 0x2028 || c.toNat == 0x2029 || c.toNat == 0x202f ||
  c.toNat == 0x205f || c.toNat == 0x3000

/-- Remove the characters satisfying `p` from both ends of a list. -/
def stripCharList (p : Char → Bool) (l : List Char) : List Char :=
  ((l.dropWhile p).reverse.dropWhile p).reverse

/-- Python `s.strip(chars)`: drop characters satisfying `p` from both ends. -/
def stripChars (p : Char → Bool) (s : String) : String :=
  ⟨stripCharList p s.data⟩

/-- Python `s.strip()` with no argument. -/
def pyStrip (s : String) : String :=
  stripChars isPyWhitespace s

/-- Python `s.lower()`, character by character.  (Only the ASCII case
matters here: the result is compared against the literal `'y'`, and the
sole character whose Python lowercase form is `'y'` is `'Y'`.) -/
def pyLower (s : String) : String :=
  ⟨s.data.map Char.toLower⟩

/-- Python `s[:n]`: the first `n` code points. -/
def strTake (s : String) (n : Nat) : String :=
  ⟨s.data.take n⟩

/-- The quote characters removed by `generated_text.strip('"\x27')` in
`generate_tweet`. -/
def isQuoteChar (c : Char) : Bool :=
  c == '"' || c == '\''

/-! ## Database model (`database.py`)

`init_db` creates `post_counts (month TEXT UNIQUE, count INTEGER)` and
`posted_tweets (content_hash TEXT UNIQUE, tweet_id TEXT, ...)` (plus two
tables unused by the posting pipeline).  A table is a list of rows; the
`UNIQUE` columns make the key of each row distinct, and the writing
statements (`INSERT ... ON CONFLICT ... DO UPDATE` and
`INSERT OR IGNORE`) respect exactly that constraint. -/

/-- The persistent state of the posting pipeline: the `post_counts` table
(month, count) and the `posted_tweets` table (content_hash, tweet_id). -/
structure DB where
  post_counts : List (String × Nat)
  posted_tweets : List (String × String)
deriving DecidableEq, Repr

/-- Row lookup `SELECT count FROM post_counts WHERE month=?`: the row for
a month, if any (`month` is `UNIQUE`, so the first match is the only one). -/
def lookupMonth : List (String × Nat) → String → Option Nat
  | [], _ => none
  | (k, v) :: rest, m => if k = m then some v else lookupMonth rest m

/-- Model of `database.get_post_count`, with the ambient current month made an
explicit argument: the stored count for the month, or 0 if no row. -/
def get_post_count (db : DB) (month : String) : Nat :=
  (lookupMonth db.post_counts month).getD 0

/-- Upsert statement `INSERT INTO post_counts (month, count) VALUES (?, 1) ON
CONFLICT(month) DO UPDATE SET count = count + 1`: increment the month's
row, or insert a fresh row with count 1. -/
def upsertCount : List (String × Nat) → String → List (String × Nat)
  | [], m => [(m, 1)]
  | (k, v) :: rest, m =>
      if k = m then (k, v + 1) :: rest else (k, v) :: upsertCount rest m

/-- Model of `database.increment_post_count`.  `err = true` models the SQL
statement raising `sqlite3.Error`: the `except` branch logs and returns
`False`, and the context manager's rollback leaves the table unchanged.
Otherwise the upsert runs, the transaction commits and `True` is
returned. -/
def increment_post_count (err : Bool) (db : DB) (month : String) :
    Bool × DB :=
  if err then (false, db)
  else (true, { db with post_counts := upsertCount db.post_counts month })

/-- Model of `database.get_content_hash`: `hashlib.md5(content.encode()).hexdigest()`
on the UTF-8 encoding of the content. -/
def get_content_hash (content : String) : String :=
  MD5.md5Hex (content.toUTF8.toList.map (·.toNat))

/-- Model of `database.has_posted_before`: `SELECT 1 FROM posted_tweets WHERE
content_hash=?` has a row. -/
def has_posted_before (db : DB) (content : String) : Bool :=
  db.posted_tweets.any fun row => row.1 == get_content_hash content

/-- Insert-or-ignore statement `INSERT OR IGNORE INTO posted_tweets (content_hash, tweet_id)`: with
`content_hash UNIQUE`, the insert is dropped when a row with that hash
exists and appends a row otherwise. -/
def insertOrIgnoreTweet (tbl : List (String × String)) (h tid : String) :
    List (String × String) :=
  if tbl.any (fun row => row.1 == h) then tbl else tbl ++ [(h, tid)]

/-- Model of `database.record_posted_tweet`.  `err = true` models the statement
raising `sqlite3.Error` (logged, `False` returned, table rolled back);
otherwise the insert-or-ignore runs and `True` is returned. -/
def record_posted_tweet (err : Bool) (db : DB) (content tid : String) :
    Bool × DB :=
  if err then (false, db)
  else (true, { db with
    posted_tweets := insertOrIgnoreTweet db.posted_tweets (get_content_hash content) tid })

/-! ## `post_tweet` (`post_tweet.py`)

The function's interactions with the outside world are collected in
`PostEnv`: the configured limits (`config.RATE_LIMIT_THRESHOLD` /
`RATE_LIMIT_MAX`, arbitrary ints from the environment), the current month
(`time.strftime`), the reply typed at the `input()` prompt, the result of
`client.create_tweet` (`Except.error` = the call raises, caught by the
outer `except` which returns `None`), and whether each database statement
raises `sqlite3.Error`.  A read raising propagates to the outer `except`
of `post_tweet`, which also returns `None`. -/

/-- The external inputs of one `post_tweet` call. -/
structure PostEnv where
  rateLimitThreshold : Int
  rateLimitMax : Int
  month : String
  approvalReply : String
  countReadErr : Bool
  dupReadErr : Bool
  createTweetResult : Except String String
  incErr : Bool
  recErr : Bool
deriving Repr

/-- What one `post_tweet` call did: the returned value (`some tweet_id`
for the API response object, `none` for Python `None`), the database
afterwards, and whether `client.create_tweet` was invoked. -/
structure PostOutcome where
  result : Option String
  db : DB
  transmitted : Bool
deriving DecidableEq, Repr

/-- Model of `post_tweet.post_tweet(message, require_approval)`.  Mirrors the
source order: empty/overlong validation, rate-limit check against
`get_post_count`, duplicate check, approval prompt
(`input().strip().lower() != 'y'` cancels), then `create_tweet` followed
by `increment_post_count()` and `record_posted_tweet(...)` whose `bool`
results are ignored.  Any exception lands in the outer `except`, which
returns `None`. -/
def post_tweet (env : PostEnv) (db : DB) (message : String)
    (require_approval : Bool) : PostOutcome :=
  if message = "" ∨ (pyStrip message).length = 0 then
    { result := none, db := db, transmitted := false }
  else if message.length > 280 then
    { result := none, db := db, transmitted := false }
  else if env.countReadErr then
    { result := none, db := db, transmitted := false }
  else if (get_post_count db env.month : Int) ≥ env.rateLimitMax then
    { result := none, db := db, transmitted := false }
  else if env.dupReadErr then
    { result := none, db := db, transmitted := false }
  else if has_posted_before db message then
    { result := none, db := db, transmitted := false }
  else
    let doPost : PostOutcome :=
      match env.createTweetResult with
      | .error _ => { result := none, db := db, transmitted := true }
      | .ok tid =>
          let db1 := (increment_post_count env.incErr db env.month).2
          let db2 := (record_posted_tweet env.recErr db1 message tid).2
          { result := some tid, db := db2, transmitted := true }
    if require_approval then
      if pyLower (pyStrip env.approvalReply) = "y" then doPost
      else { result := none, db := db, transmitted := false }
    else doPost

/-! ## `generate_tweet` (`post_tweet.py`)

`responseText` is `response.text` of the Gemini call: `none` when the
response object or its text is falsy (the `not response or not
response.text` guard), `some t` otherwise; `genErr = true` models any
exception in the `try` block (logged, `None` returned). -/

/-- Model of `post_tweet.generate_tweet(topic)`: strip whitespace, strip wrapping
quotes, truncate to 277 characters plus `"..."` when longer than 280. -/
def generate_tweet (genErr : Bool) (responseText : Option String) :
    Option String :=
  if genErr then none
  else match responseText with
    | none => none
    | some t =>
        if t = "" then none
        else
          let generated_text := stripChars isQuoteChar (pyStrip t)
          if generated_text.length > 280 then
            some (strTake generated_text 277 ++ "...")
          else
            some generated_text

/-! ## Traces of `post_tweet` calls

Used to state that the `post_counts` tally equals the number of
successfully transmitted tweets per month. -/

/-- One call of `post_tweet` together with its external inputs. -/
structure PostCall where
  env : PostEnv
  message : String
  require_approval : Bool
deriving Repr

/-- The database after a sequence of `post_tweet` calls. -/
def runPosts (db : DB) : List PostCall → DB
  | [] => db
  | c :: rest => runPosts (post_tweet c.env db c.message c.require_approval).db rest

/-- How many calls of the sequence successfully post (return a response)
in month `m`, threading the database through the calls. -/
def successCount (db : DB) (m : String) : List PostCall → Nat
  | [] => 0
  | c :: rest =>
      (if c.env.month = m ∧
          (post_tweet c.env db c.message c.require_approval).result.isSome = true
       then 1 else 0) +
        successCount (post_tweet c.env db c.message c.require_approval).db m rest

/-! ## Concrete sample inputs

Closed values the witness theorems instantiate the claims with. -/

/-- An empty database: both tables have no rows. -/
def sampleDB : DB :=
  { post_counts := [], posted_tweets := [] }

/-- A database whose `posted_tweets` table already has a row carrying the
content hash of `"hello"`. -/
def dupDB : DB :=
  { post_counts := [], posted_tweets := [(get_content_hash "hello", "1")] }

/-- A benign environment: the default limits of `config.py`, a fresh
month, an approving reply, no database failures, and an X API call that
returns tweet id `"1"`. -/
def sampleEnv : PostEnv :=
  { rateLimitThreshold := 450, rateLimitMax := 500, month := "2025-01",
    approvalReply := "y", countReadErr := false, dupReadErr := false,
    createTweetResult := Except.ok "1", incErr := false, recErr := false }

/-- The benign environment with the monthly ceiling set to zero. -/
def quotaEnv : PostEnv :=
  { sampleEnv with rateLimitMax := 0 }

/-- The benign environment with a declining reply at the prompt. -/
def declineEnv : PostEnv :=
  { sampleEnv with approvalReply := "n" }

/-- The benign environment, except that the count-update statement of
`increment_post_count` raises `sqlite3.Error`. -/
def incFailEnv : PostEnv :=
  { sampleEnv with incErr := true }

/-- A single benign posting call. -/
def sampleCalls : List PostCall :=
  [{ env := sampleEnv, message := "hello", require_approval := false }]

/-- A 300-character AI response text. -/
def longText : String :=
  String.mk (List.replicate 300 'a')

/-! ## Helper lemmas -/

/-- The upsert bumps the looked-up count of the targeted month by one. -/
theorem lookupMonth_upsertCount_self (l : List (String × Nat)) (m : String) :
    lookupMonth (upsertCount l m) m = some ((lookupMonth l m).getD 0 + 1) := by
  induction l with
  | nil => simp [upsertCount, lookupMonth]
  | cons kv rest ih =>
      obtain ⟨k, v⟩ := kv
      by_cases hk : k = m
      · simp [upsertCount, lookupMonth, hk]
      · simp [upsertCount, lookupMonth, hk, ih]

/-- The upsert leaves the rows of every other month alone. -/
theorem lookupMonth_upsertCount_ne (l : List (String × Nat)) (m m' : String)
    (h : m' ≠ m) :
    lookupMonth (upsertCount l m) m' = lookupMonth l m' := by
  induction l with
  | nil => simp [upsertCount, lookupMonth, Ne.symm h]
  | cons kv rest ih =>
      obtain ⟨k, v⟩ := kv
      by_cases hk : k = m
      · subst hk
        simp [upsertCount, lookupMonth, Ne.symm h]
      · by_cases hk' : k = m'
        · simp [upsertCount, lookupMonth, hk, hk', h]
        · simp [upsertCount, lookupMonth, hk, hk', ih]

/-- Recording a tweet never touches the `post_counts` table. -/
theorem record_posted_tweet_post_counts (err : Bool) (db : DB)
    (content tid : String) :
    ((record_posted_tweet err db content tid).2).post_counts = db.post_counts := by
  cases err <;> simp [record_posted_tweet]

/-- Incrementing the count never touches the `posted_tweets` table. -/
theorem increment_post_count_posted_tweets (err : Bool) (db : DB) (m : String) :
    ((increment_post_count err db m).2).posted_tweets = db.posted_tweets := by
  cases err <;> simp [increment_post_count]

/-- After an insert-or-ignore of hash `h`, the table has a row with hash
`h`. -/
theorem any_insertOrIgnoreTweet_self (tbl : List (String × String))
    (h tid : String) :
    (insertOrIgnoreTweet tbl h tid).any (fun row => row.1 == h) = true := by
  unfold insertOrIgnoreTweet
  by_cases hmem : tbl.any (fun row => row.1 == h) = true
  · simp [hmem]
  · simp [hmem]

/-- Case analysis of `post_tweet`: it either fails before the API call
(nothing transmitted, database untouched), or the API call raises
(transmitted, database untouched), or the post succeeds and the two
bookkeeping writes run in order. -/
theorem post_tweet_cases (env : PostEnv) (db : DB) (message : String) (ra : Bool) :
    post_tweet env db message ra = { result := none, db := db, transmitted := false } ∨
    post_tweet env db message ra = { result := none, db := db, transmitted := true } ∨
    (∃ tid, env.createTweetResult = Except.ok tid ∧
      post_tweet env db message ra =
        { result := some tid,
          db := (record_posted_tweet env.recErr
                   (increment_post_count env.incErr db env.month).2 message tid).2,
          transmitted := true }) := by
  unfold post_tweet
  split_ifs <;> try (left; rfl)
  all_goals
    cases hc : env.createTweetResult with
    | error e => right; left; simp [hc]
    | ok tid => right; right; exact ⟨tid, rfl, by simp [hc]⟩

/-- When `increment_post_count` does not fail, one `post_tweet` call
changes a month's count by one on success and not at all otherwise. -/
theorem get_post_count_step (env : PostEnv) (db : DB) (message : String) (ra : Bool)
    (h : env.incErr = false) (m : String) :
    get_post_count (post_tweet env db message ra).db m =
      get_post_count db m +
        (if env.month = m ∧ (post_tweet env db message ra).result.isSome = true
         then 1 else 0) := by
  rcases post_tweet_cases env db message ra with hc | hc | ⟨tid, hok, hc⟩ <;> rw [hc]
  · simp
  · simp
  · simp only [Option.isSome_some, and_true]
    show get_post_count (record_posted_tweet env.recErr
      (increment_post_count env.incErr db env.month).2 message tid).2 m = _
    unfold get_post_count
    rw [record_posted_tweet_post_counts, h]
    by_cases hm : env.month = m
    · subst hm
      simp [increment_post_count, lookupMonth_upsertCount_self]
    · simp [increment_post_count, lookupMonth_upsertCount_ne _ _ _ (Ne.symm hm), hm]

/-- Over a whole sequence of calls whose count writes do not fail, each
month's tally grows by exactly the number of successful posts in it. -/
theorem runPosts_tally (calls : List PostCall) :
    ∀ db : DB, (∀ c ∈ calls, c.env.incErr = false) →
      ∀ m, get_post_count (runPosts db calls) m =
        get_post_count db m + successCount db m calls := by
  induction calls with
  | nil => intro db _ m; simp [runPosts, successCount]
  | cons c rest ih =>
      intro db h m
      have hc := h c (List.mem_cons_self c rest)
      have hrest : ∀ d ∈ rest, d.env.incErr = false :=
        fun d hd => h d (List.mem_cons_of_mem c hd)
      simp only [runPosts, successCount]
      rw [ih _ hrest m, get_post_count_step c.env db c.message c.require_approval hc m,
        Nat.add_assoc]

/-- Insert-or-ignore preserves distinctness of the hash column. -/
theorem nodup_insertOrIgnoreTweet (tbl : List (String × String)) (h tid : String)
    (hn : (tbl.map Prod.fst).Nodup) :
    ((insertOrIgnoreTweet tbl h tid).map Prod.fst).Nodup := by
  unfold insertOrIgnoreTweet
  by_cases hmem : tbl.any (fun row => row.1 == h) = true
  · simp [hmem, hn]
  · have hnot : h ∉ tbl.map Prod.fst := by
      intro hmem2
      rcases List.mem_map.mp hmem2 with ⟨row, hrow, hfst⟩
      exact hmem (List.any_eq_true.mpr ⟨row, hrow, by simp [hfst]⟩)
    simp [hmem, List.nodup_append, hn, hnot]

/-! ## Claim theorems -/

/-- C1: for every message, when the current month's count returned by
`get_post_count` has reached `RATE_LIMIT_MAX`, `post_tweet` returns
`None`, transmits nothing to the platform, and leaves both the
`post_counts` and `posted_tweets` tables unchanged. -/
theorem post_tweet_quota_blocks (env : PostEnv) (db : DB) (message : String)
    (ra : Bool) (h : (get_post_count db env.month : Int) ≥ env.rateLimitMax) :
    post_tweet env db message ra =
      { result := none, db := db, transmitted := false } := by
  unfold post_tweet
  split_ifs <;> first | rfl | omega

/-- Witness for C1: with the ceiling configured to zero, the fresh-month
count 0 already meets it and a posting attempt is blocked. -/
theorem post_tweet_quota_blocks_witness :
    ((get_post_count sampleDB quotaEnv.month : Int) ≥ quotaEnv.rateLimitMax) ∧
    post_tweet quotaEnv sampleDB "hello" false =
      { result := none, db := sampleDB, transmitted := false } :=
  ⟨by decide, post_tweet_quota_blocks quotaEnv sampleDB "hello" false (by decide)⟩

/-- C2: with `require_approval = True`, a tweet is transmitted only after
the confirmation prompt was answered with (stripped, lowercased) `"y"`;
any other reply makes `post_tweet` return `None` with nothing transmitted
and no tracking state changed. -/
theorem post_tweet_approval_gate (env : PostEnv) (db : DB) (message : String) :
    ((post_tweet env db message true).transmitted = true →
      pyLower (pyStrip env.approvalReply) = "y") ∧
    (pyLower (pyStrip env.approvalReply) ≠ "y" →
      post_tweet env db message true =
        { result := none, db := db, transmitted := false }) := by
  unfold post_tweet
  split_ifs with h1 h2 h3 h4 h5 h6 h7 h8
  · exact ⟨fun hh => by simp at hh, fun _ => rfl⟩
  · exact ⟨fun hh => by simp at hh, fun _ => rfl⟩
  · exact ⟨fun hh => by simp at hh, fun _ => rfl⟩
  · exact ⟨fun hh => by simp at hh, fun _ => rfl⟩
  · exact ⟨fun hh => by simp at hh, fun _ => rfl⟩
  · exact ⟨fun hh => by simp at hh, fun _ => rfl⟩
  · exact ⟨fun _ => h8, fun hh => absurd h8 hh⟩
  · exact ⟨fun hh => by simp at hh, fun _ => rfl⟩
  · exact absurd rfl h7

/-- Witness for C2: a `"n"` reply cancels the posting. -/
theorem post_tweet_approval_gate_witness :
    pyLower (pyStrip declineEnv.approvalReply) ≠ "y" ∧
    post_tweet declineEnv sampleDB "hello" true =
      { result := none, db := sampleDB, transmitted := false } :=
  ⟨by decide, (post_tweet_approval_gate declineEnv sampleDB "hello").2 (by decide)⟩

/-- C3: a message whose content hash already has a row in the
`posted_tweets` table makes `post_tweet` return `None` without
transmitting anything. -/
theorem post_tweet_skips_duplicate (env : PostEnv) (db : DB) (message : String)
    (ra : Bool) (h : has_posted_before db message = true) :
    (post_tweet env db message ra).result = none ∧
      (post_tweet env db message ra).transmitted = false := by
  unfold post_tweet
  split_ifs <;> simp_all

/-- Witness for C3: a database already holding the hash of `"hello"`
blocks reposting `"hello"`. -/
theorem post_tweet_skips_duplicate_witness :
    has_posted_before dupDB "hello" = true ∧
    (post_tweet sampleEnv dupDB "hello" false).result = none ∧
    (post_tweet sampleEnv dupDB "hello" false).transmitted = false :=
  have hd : has_posted_before dupDB "hello" = true := by
    simp [has_posted_before, dupDB]
  ⟨hd, post_tweet_skips_duplicate sampleEnv dupDB "hello" false hd⟩

/-- C8: an empty or whitespace-only message, or a message longer than 280
characters, makes `post_tweet` return `None` without contacting the
platform and without touching either table. -/
theorem post_tweet_rejects_invalid_message (env : PostEnv) (db : DB)
    (message : String) (ra : Bool)
    (h : (pyStrip message).length = 0 ∨ message.length > 280) :
    post_tweet env db message ra =
      { result := none, db := db, transmitted := false } := by
  unfold post_tweet
  split_ifs with h1 h2 <;> first
    | rfl
    | (rcases h with h | h
       · exact absurd (Or.inr h) h1
       · exact absurd h h2)

/-- Witness for C8: the empty message is rejected. -/
theorem post_tweet_rejects_invalid_message_witness :
    ((pyStrip "").length = 0 ∨ "".length > 280) ∧
    post_tweet sampleEnv sampleDB "" true =
      { result := none, db := sampleDB, transmitted := false } :=
  ⟨Or.inl rfl,
   post_tweet_rejects_invalid_message sampleEnv sampleDB "" true (Or.inl rfl)⟩

/-- Counterexample to C4 as stated: `post_tweet.py` line 107 calls
`increment_post_count()` only after the tweet has been transmitted and
ignores its boolean, and `database.py` lines 103–105 catch the
statement's `sqlite3.Error`, log it and return `False`.  So when that
statement raises, a tweet is successfully transmitted and `post_tweet`
returns the response, yet the current month's count is not incremented —
the tally no longer equals the number of transmitted tweets. -/
theorem post_counts_tally_counterexample :
    (post_tweet incFailEnv sampleDB "hello" false).result = some "1" ∧
    (post_tweet incFailEnv sampleDB "hello" false).transmitted = true ∧
    get_post_count (post_tweet incFailEnv sampleDB "hello" false).db
        incFailEnv.month =
      get_post_count sampleDB incFailEnv.month :=
  ⟨rfl, rfl, rfl⟩

/-- C4 (amended): provided the count-update statement of
`increment_post_count` does not raise `sqlite3.Error`, the `post_counts`
tally of every month equals its initial value plus the number of tweets
successfully transmitted in that month over any sequence of calls; in
particular one successful `post_tweet` call adds exactly one to the
current month's count (a fresh month gets a row with count 1) and leaves
every other month's row unchanged. -/
theorem post_counts_tally (db : DB) (calls : List PostCall)
    (h : ∀ c ∈ calls, c.env.incErr = false) :
    (∀ m, get_post_count (runPosts db calls) m =
        get_post_count db m + successCount db m calls) ∧
    (∀ env msg ra, PostEnv.incErr env = false →
      (post_tweet env db msg ra).result.isSome = true →
      get_post_count (post_tweet env db msg ra).db env.month =
          get_post_count db env.month + 1 ∧
        (∀ m', m' ≠ env.month →
          lookupMonth (post_tweet env db msg ra).db.post_counts m' =
            lookupMonth db.post_counts m') ∧
        (lookupMonth db.post_counts env.month = none →
          lookupMonth (post_tweet env db msg ra).db.post_counts env.month =
            some 1)) := by
  constructor
  · exact runPosts_tally calls db h
  · intro env msg ra hinc hsome
    rcases post_tweet_cases env db msg ra with hc | hc | ⟨tid, hok, hc⟩
    · rw [hc] at hsome; simp at hsome
    · rw [hc] at hsome; simp at hsome
    · have hpc : (post_tweet env db msg ra).db.post_counts =
          upsertCount db.post_counts env.month := by
        rw [hc]
        show (record_posted_tweet env.recErr
            (increment_post_count env.incErr db env.month).2 msg tid).2.post_counts = _
        rw [record_posted_tweet_post_counts, hinc]
        rfl
      refine ⟨?_, ?_, ?_⟩
      · unfold get_post_count
        rw [hpc, lookupMonth_upsertCount_self]
        rfl
      · intro m' hm'
        rw [hpc]
        exact lookupMonth_upsertCount_ne _ _ _ hm'
      · intro hnone
        rw [hpc, lookupMonth_upsertCount_self, hnone]
        rfl

/-- Witness for C4: one benign call on the empty database. -/
theorem post_counts_tally_witness :
    (∀ c ∈ sampleCalls, c.env.incErr = false) ∧
    (∀ m, get_post_count (runPosts sampleDB sampleCalls) m =
        get_post_count sampleDB m + successCount sampleDB m sampleCalls) :=
  have hw : ∀ c ∈ sampleCalls, c.env.incErr = false := by
    simp [sampleCalls, sampleEnv]
  ⟨hw, (post_counts_tally sampleDB sampleCalls hw).1⟩

/-- C5: once `record_posted_tweet content tweet_id` has returned `True`,
`has_posted_before content` returns `True`. -/
theorem record_then_has_posted (err : Bool) (db : DB) (content tid : String)
    (h : (record_posted_tweet err db content tid).1 = true) :
    has_posted_before (record_posted_tweet err db content tid).2 content = true := by
  cases err with
  | true => simp [record_posted_tweet] at h
  | false =>
      show has_posted_before
        { db with posted_tweets :=
            insertOrIgnoreTweet db.posted_tweets (get_content_hash content) tid }
        content = true
      unfold has_posted_before
      exact any_insertOrIgnoreTweet_self _ _ _

/-- Witness for C5: recording `"hello"` makes it look already posted. -/
theorem record_then_has_posted_witness :
    (record_posted_tweet false sampleDB "hello" "1").1 = true ∧
    has_posted_before (record_posted_tweet false sampleDB "hello" "1").2 "hello" = true :=
  ⟨rfl, record_then_has_posted false sampleDB "hello" "1" rfl⟩

/-- C6: the bookkeeping writes never raise a database error to the
caller: `increment_post_count` and `record_posted_tweet` return `False`
exactly when the underlying statement raises `sqlite3.Error` (which they
log), and `True` otherwise. -/
theorem db_writes_report_errors (err : Bool) (db : DB)
    (month content tid : String) :
    (increment_post_count err db month).1 = !err ∧
    (record_posted_tweet err db content tid).1 = !err := by
  cases err <;> exact ⟨rfl, rfl⟩

/-- C7: a month with no `post_counts` row reads back as count 0, so with
a positive `RATE_LIMIT_MAX` the quota comparison does not block and an
otherwise valid post goes through. -/
theorem fresh_month_permits_posting (env : PostEnv) (db : DB) (msg tid : String)
    (hfresh : lookupMonth db.post_counts env.month = none)
    (hmax : 0 < env.rateLimitMax) :
    get_post_count db env.month = 0 ∧
    ¬((get_post_count db env.month : Int) ≥ env.rateLimitMax) ∧
    (msg ≠ "" → (pyStrip msg).length ≠ 0 → ¬(msg.length > 280) →
      env.countReadErr = false → env.dupReadErr = false →
      has_posted_before db msg = false →
      env.createTweetResult = Except.ok tid →
      (post_tweet env db msg false).result = some tid) := by
  have h0 : get_post_count db env.month = 0 := by
    unfold get_post_count
    rw [hfresh]
    rfl
  have hlt : ¬((get_post_count db env.month : Int) ≥ env.rateLimitMax) := by
    rw [h0]
    omega
  refine ⟨h0, hlt, ?_⟩
  intro h1 h2 h3 h4 h5 h6 h7
  unfold post_tweet
  simp [h1, h2, h3, h4, h5, h6, h7, hlt]

/-- Witness for C7: the empty database permits posting `"hello"` in the
sample month. -/
theorem fresh_month_permits_posting_witness :
    lookupMonth sampleDB.post_counts sampleEnv.month = none ∧
    0 < sampleEnv.rateLimitMax ∧
    (post_tweet sampleEnv sampleDB "hello" false).result = some "1" :=
  ⟨rfl, by decide,
   (fresh_month_permits_posting sampleEnv sampleDB "hello" "1" rfl (by decide)).2.2
     (by decide) (by decide) (by decide) rfl rfl rfl rfl⟩

/-- C9: `generate_tweet` yields `None` or a string of at most 280
characters; a response text which after stripping still exceeds 280
characters is truncated to its first 277 characters plus `"..."`, and an
empty AI response yields `None`. -/
theorem generate_tweet_length_bounds (genErr : Bool)
    (responseText : Option String) :
    (∀ s, generate_tweet genErr responseText = some s → s.length ≤ 280) ∧
    generate_tweet genErr none = none ∧
    generate_tweet genErr (some "") = none ∧
    (∀ t, responseText = some t → genErr = false →
      280 < (stripChars isQuoteChar (pyStrip t)).length →
      generate_tweet genErr responseText =
        some (strTake (stripChars isQuoteChar (pyStrip t)) 277 ++ "...")) := by
  refine ⟨?_, by cases genErr <;> rfl, by cases genErr <;> rfl, ?_⟩
  · intro s hs
    cases genErr with
    | true => simp [generate_tweet] at hs
    | false =>
        cases responseText with
        | none => simp [generate_tweet] at hs
        | some t =>
            by_cases ht : t = ""
            · simp [generate_tweet, ht] at hs
            · by_cases hg : (stripChars isQuoteChar (pyStrip t)).length > 280
              · simp only [generate_tweet, if_neg ht, hg, if_true, if_pos,
                  Option.some.injEq, Bool.false_eq_true, if_false] at hs
                rw [← hs]
                show ((stripChars isQuoteChar (pyStrip t)).data.take 277 ++
                  ['.', '.', '.']).length ≤ 280
                simp [List.length_take]
              · simp only [generate_tweet, if_neg ht, hg, Option.some.injEq,
                  Bool.false_eq_true, if_false] at hs
                rw [← hs]
                omega
  · intro t ht hgen hlen
    subst ht
    subst hgen
    by_cases ht0 : t = ""
    · subst ht0
      exact absurd hlen (by decide)
    · simp [generate_tweet, ht0, hlen]

/-- Witness for C9: a 300-character response is truncated to 277
characters plus the ellipsis. -/
theorem generate_tweet_length_bounds_witness :
    280 < (stripChars isQuoteChar (pyStrip longText)).length ∧
    generate_tweet false (some longText) =
      some (strTake (stripChars isQuoteChar (pyStrip longText)) 277 ++ "...") :=
  ⟨by set_option maxRecDepth 4000 in decide,
   (generate_tweet_length_bounds false (some longText)).2.2.2 longText rfl rfl
     (by set_option maxRecDepth 4000 in decide)⟩

/-- C10: the `posted_tweets` table keeps at most one row per content
hash: distinctness of the hash column is preserved by the posting
pipeline's writes, and recording a second content with the same hash
leaves the database unchanged. -/
theorem posted_tweets_unique_per_hash (err err2 : Bool) (db : DB)
    (c c2 t t2 month : String)
    (hn : (db.posted_tweets.map Prod.fst).Nodup)
    (hh : get_content_hash c2 = get_content_hash c) :
    ((record_posted_tweet err db c t).2.posted_tweets.map Prod.fst).Nodup ∧
    (record_posted_tweet err2 (record_posted_tweet false db c t).2 c2 t2).2 =
      (record_posted_tweet false db c t).2 ∧
    (increment_post_count err db month).2.posted_tweets = db.posted_tweets := by
  refine ⟨?_, ?_, increment_post_count_posted_tweets err db month⟩
  · cases err with
    | true => exact hn
    | false => exact nodup_insertOrIgnoreTweet _ _ _ hn
  · cases err2 with
    | true => rfl
    | false =>
        have hany : (record_posted_tweet false db c t).2.posted_tweets.any
            (fun row => row.1 == get_content_hash c) = true := by
          show (insertOrIgnoreTweet db.posted_tweets (get_content_hash c) t).any _ = true
          exact any_insertOrIgnoreTweet_self _ _ _
        show ({ (record_posted_tweet false db c t).2 with
            posted_tweets := insertOrIgnoreTweet
              (record_posted_tweet false db c t).2.posted_tweets
              (get_content_hash c2) t2 }) = (record_posted_tweet false db c t).2
        rw [hh]
        unfold insertOrIgnoreTweet
        rw [if_pos hany]

/-- Witness for C10: recording `"hello"` twice into the empty database
keeps the hash column duplicate-free and the second write is a no-op. -/
theorem posted_tweets_unique_per_hash_witness :
    (sampleDB.posted_tweets.map Prod.fst).Nodup ∧
    get_content_hash "hello" = get_content_hash "hello" ∧
    (record_posted_tweet false
        (record_posted_tweet false sampleDB "hello" "1").2 "hello" "2").2 =
      (record_posted_tweet false sampleDB "hello" "1").2 :=
  have hn : (sampleDB.posted_tweets.map Prod.fst).Nodup := by simp [sampleDB]
  ⟨hn, rfl,
   (posted_tweets_unique_per_hash false false sampleDB "hello" "hello" "1" "2"
     "2025-01" hn rfl).2.1⟩
